import Mathlib

/-!
Verification of the call-campaign orchestration engine of the
voice-bot grievance-survey system.

The definitions below are a shallow embedding of the TypeScript sources
`src/lib/call-orchestrator.ts`, `src/lib/database.ts`,
`src/lib/openai-client.ts` and `src/lib/twilio-client.ts`.  Persistent
state (the Supabase tables) is modelled as explicit record-holding lists;
asynchronous side effects (setTimeout continuations, telephony dials,
dialogue-engine invocations) are recorded in an effect trace; external
services (the LLM, the telephony gateway) are oracles supplied as inputs.
-/

namespace VoiceBot

/-- Conversation message role (openai-client.ts `ConversationContext`). -/
inductive Role
  | system
  | user
  | assistant
deriving DecidableEq, Repr

/-- One conversation turn: role, content, timestamp (ms). -/
structure Msg where
  role : Role
  content : String
  timestamp : Nat
deriving DecidableEq, Repr

/-- Per-call conversation state (openai-client.ts `ConversationContext`). -/
structure ConversationContext where
  callId : String
  campaignId : String
  customerName : String
  customerReason : String
  services : List String
  bankName : String
  botName : String
  conversationHistory : List Msg
deriving DecidableEq, Repr

/-- Internal call lifecycle status (types/call.ts `CallStatus`, restricted to
the statuses produced by the orchestrator logic). -/
inductive CallStatus
  | pending
  | calling
  | ringing
  | answered
  | completed
  | failed
  | cancelled
deriving DecidableEq, Repr

/-- Campaign lifecycle status (types/call.ts `CampaignStatus`). -/
inductive CampaignStatus
  | draft
  | running
  | paused
  | completedC
  | cancelled
  | error
deriving DecidableEq, Repr

/-- Campaign retry policy (call-orchestrator.ts `retrySettings`). -/
structure RetrySettings where
  maxRetries : Nat
  retryDelay : Nat
  retryOnBusy : Bool
  retryOnNoAnswer : Bool
  retryOnFailed : Bool
deriving DecidableEq, Repr

/-- A call record (types/call.ts `Call`; only the fields the orchestrator
logic reads or writes are modelled). -/
structure Call where
  id : String
  customerId : String
  customerName : String
  customerPhone : String
  campaignId : String
  status : CallStatus
  twilioSid : Option String := none
  startedAt : Option Nat := none
  endedAt : Option Nat := none
  duration : Option Nat := none
  transcript : Option String := none
  errorMessage : Option String := none
  retryCount : Nat := 0
  maxRetries : Nat
  services : List String := []
deriving DecidableEq, Repr

/-- A campaign record (types/call.ts `CallCampaign`; fields the orchestrator
reads). -/
structure Campaign where
  id : String
  status : CampaignStatus
  retrySettings : RetrySettings
deriving DecidableEq, Repr

/-- A customer record (types/customer.ts `ProcessedCustomer`; fields the
orchestrator reads).  `reason` is optional in the source (`customer.reason
|| const ""` coalescing). -/
structure Customer where
  id : String
  name : String
  phone : String
  reason : Option String := none
deriving DecidableEq, Repr

/-- The Data Store state: the customers, campaigns, calls and conversations
tables. -/
structure Db where
  customers : List Customer
  campaigns : List Campaign
  calls : List Call
  conversations : List ConversationContext
deriving DecidableEq, Repr

/-- Supabase `.select().eq(id).single()` semantics: the query succeeds with
the row when exactly one row matches and otherwise yields an error
(PostgREST code PGRST116).  `getCallById` in database.ts relies on exactly
this contract when it catches the error of a missing call and returns null. -/
def sbSingle {α : Type} (rows : List α) : Except String α :=
  match rows with
  | [r] => .ok r
  | [] => .error "PGRST116: zero rows returned"
  | _ => .error "PGRST116: more than one row returned"

/-- database.ts `getCampaignById`: `.single()` then `if (error) throw error;
return data ? mapRowToCampaign(data) : null`.  The null branch is only
reachable if the query succeeds with no data, which `.single()` never does. -/
def getCampaignById (db : Db) (id : String) : Except String (Option Campaign) :=
  match sbSingle (db.campaigns.filter (fun c => c.id = id)) with
  | .error e => .error e
  | .ok d => .ok (some d)

/-- database.ts `getCustomerById`: same shape as `getCampaignById`. -/
def getCustomerById (db : Db) (id : String) : Except String (Option Customer) :=
  match sbSingle (db.customers.filter (fun c => c.id = id)) with
  | .error e => .error e
  | .ok d => .ok (some d)

/-- database.ts `getCallById`: `.single()`, but the error is caught and
null returned (`if (error) return null`). -/
def getCallById (db : Db) (id : String) : Option Call :=
  match sbSingle (db.calls.filter (fun c => c.id = id)) with
  | .error _ => none
  | .ok d => some d

/-- The optional column updates `updateCallStatus` accepts.  These are the
columns the update payload in database.ts actually names; a field left
`none` corresponds to `undefined` in the payload, which the client strips
before the request, leaving the column unchanged. -/
structure CallUpdates where
  twilioSid : Option String := none
  startedAt : Option Nat := none
  endedAt : Option Nat := none
  duration : Option Nat := none
  transcript : Option String := none
  errorMessage : Option String := none
deriving DecidableEq, Repr

/-- Apply one `updateCallStatus` row update to a call record. -/
def applyCallUpdate (status : CallStatus) (u : CallUpdates) (c : Call) : Call :=
  { c with
    status := status
    twilioSid := u.twilioSid.orElse (fun _ => c.twilioSid)
    startedAt := u.startedAt.orElse (fun _ => c.startedAt)
    endedAt := u.endedAt.orElse (fun _ => c.endedAt)
    duration := u.duration.orElse (fun _ => c.duration)
    transcript := u.transcript.orElse (fun _ => c.transcript)
    errorMessage := u.errorMessage.orElse (fun _ => c.errorMessage) }

/-- database.ts `updateCallStatus(id, status, updates)`: an UPDATE keyed
only on `id` (`.eq(id)`) with no precondition on the current status. -/
def updateCallStatus (db : Db) (id : String) (status : CallStatus) (u : CallUpdates) : Db :=
  { db with calls := db.calls.map (fun c => if c.id = id then applyCallUpdate status u c else c) }

/-- database.ts `getCallsByStatus(status, limit = 100)`: filter by status,
first `limit` rows in scheduling order (the list order models the
`scheduled_at` ordering). -/
def getCallsByStatus (db : Db) (status : CallStatus) (limit : Nat := 100) : List Call :=
  (db.calls.filter (fun c => c.status = status)).take limit

/-- database.ts `getCallsByCampaign(campaignId)`. -/
def getCallsByCampaign (db : Db) (campaignId : String) : List Call :=
  db.calls.filter (fun c => c.campaignId = campaignId)

/-- database.ts `updateCampaignStatus(id, status)`. -/
def updateCampaignStatus (db : Db) (id : String) (status : CampaignStatus) : Db :=
  { db with campaigns := db.campaigns.map (fun c => if c.id = id then { c with status := status } else c) }

/-- Modelled from the spec: `insertConversation` is invoked by the
orchestrator but absent from every database implementation in the
repository; per the Data Store contract (spec section 6) and the
ConversationContext data model (spec section 3), conversations are keyed by
callId and one record exists per in-flight call. -/
def insertConversation (db : Db) (ctx : ConversationContext) : Db :=
  { db with conversations := ctx :: db.conversations.filter (fun c => c.callId ≠ ctx.callId) }

/-- Modelled from the spec: `getConversationByCallId` (spec section 6), the
callId-keyed lookup of the stored conversation. -/
def getConversationByCallId (db : Db) (callId : String) : Option ConversationContext :=
  db.conversations.find? (fun c => c.callId = callId)

/-- Modelled from the spec: `updateConversationHistory(callId, history)`
(spec section 6), replacing the stored turn list of the conversation keyed
by callId. -/
def updateConversationHistory (db : Db) (callId : String) (h : List Msg) : Db :=
  { db with
    conversations :=
      db.conversations.map (fun c => if c.callId = callId then { c with conversationHistory := h } else c) }

/-- Modelled from the spec: `deleteConversation(callId)` (spec section 6),
purging the conversation keyed by callId. -/
def deleteConversation (db : Db) (callId : String) : Db :=
  { db with conversations := db.conversations.filter (fun c => c.callId ≠ callId) }

/-- Observable events of the orchestrator: telephony dials, dialogue-engine
invocations, gateway cancels, the handlers that were run, and the delayed
continuations registered with setTimeout. -/
inductive Effect
  | dialed (callId : String)
  | engineGenerate (input : String)
  | scheduleCompletion (callId : String) (delayMs : Nat)
  | scheduleRequeue (callId : String) (delayMs : Nat)
  | completionHandling (callId : String)
  | failureHandling (callId : String)
  | gatewayCancel (sid : String)
deriving DecidableEq, Repr

/-- Result of an orchestrator entry point: the Data Store state when the
function settled, the effect trace, and the rejection message when its
promise rejected rather than resolved. -/
structure Outcome where
  db : Db
  effects : List Effect
  thrown : Option String := none
deriving DecidableEq, Repr

/-- Whether `pat` occurs as a contiguous subsequence of `l` (the semantics
of JavaScript `String.prototype.includes`). -/
def containsSeq (pat : List Char) : List Char → Bool
  | [] => List.isPrefixOf pat []
  | a :: rest => List.isPrefixOf pat (a :: rest) || containsSeq pat rest

/-- JavaScript `s.includes(pat)` on strings. -/
def strContains (s pat : String) : Bool :=
  containsSeq pat.data s.data

/-- JavaScript `s.toLowerCase()` (over the characters the orchestrator
compares, ASCII). -/
def strToLower (s : String) : String :=
  String.mk (s.data.map Char.toLower)

/-- call-orchestrator.ts `shouldRetryCall(errorMessage, retrySettings)`:
case-insensitive substring match of the failure reason against the enabled
retry conditions, first match wins. -/
def shouldRetryCall (errorMessage : String) (rs : RetrySettings) : Bool :=
  let err := strToLower errorMessage
  if strContains err "busy" && rs.retryOnBusy then true
  else if strContains err "no-answer" && rs.retryOnNoAnswer then true
  else if strContains err "failed" && rs.retryOnFailed then true
  else false

/-- Dialogue-engine reply (openai-client.ts `AIResponse`, the fields the
orchestrator reads). -/
structure AIResponse where
  message : String
  shouldEndCall : Bool
  summary : Option String := none
deriving DecidableEq, Repr

/-- Oracle for the external LLM chat completion: the API call threw, or it
returned content (possibly absent). -/
inductive LlmResult
  | apiError
  | content (s : Option String)
deriving DecidableEq, Repr

/-- openai-client.ts fallback when the completion has no content. -/
def defaultAiMessage : String := "I understand. Could you tell me more about that?"

/-- openai-client.ts `generateResponse` catch-branch reply. -/
def apiErrorMessage : String :=
  "I apologize, I\x27m having some technical difficulties. Could you please repeat what you just said?"

/-- openai-client.ts `generateResponse(customerInput, context)`: pushes the
customer turn onto the history, obtains the LLM reply (empty or missing
content falls back to a default), pushes the assistant turn, and signals
end-of-call when the customer has now responded 3 or more times.  If the
API call throws, the catch returns a fixed apology with shouldEndCall
false; the customer turn already pushed remains on the context. -/
def generateResponse (llm : LlmResult) (customerInput : String) (ctx : ConversationContext)
    (now : Nat) : AIResponse × ConversationContext :=
  let ctx1 := { ctx with conversationHistory := ctx.conversationHistory ++ [⟨Role.user, customerInput, now⟩] }
  match llm with
  | .apiError => ({ message := apiErrorMessage, shouldEndCall := false }, ctx1)
  | .content s =>
    let aiMessage :=
      match s with
      | none => defaultAiMessage
      | some t => if t = "" then defaultAiMessage else t
    let ctx2 := { ctx1 with conversationHistory := ctx1.conversationHistory ++ [⟨Role.assistant, aiMessage, now⟩] }
    let customerResponseCount := (ctx2.conversationHistory.filter (fun m => m.role = Role.user)).length
    ({ message := aiMessage, shouldEndCall := decide (3 ≤ customerResponseCount) }, ctx2)

/-- First closing template of openai-client.ts `generateClosingMessage`. -/
def closingMessage0 (customerName bankName : String) : String :=
  "Thank you so much for taking the time to speak with me today, " ++ customerName ++
    ". Your feedback is incredibly valuable to us at " ++ bankName ++
    ", and I want you to know that we\x27ve heard everything you\x27ve shared. We truly appreciate your honesty."

/-- Second closing template of openai-client.ts `generateClosingMessage`. -/
def closingMessage1 (customerName : String) : String :=
  customerName ++ ", I really appreciate you sharing your experience with me. Your feedback helps us understand where we can do better. Thank you for giving us this opportunity to listen."

/-- Third closing template of openai-client.ts `generateClosingMessage`. -/
def closingMessage2 (customerName : String) : String :=
  "Thank you, " ++ customerName ++ ", for being so open about your experience. We value your feedback tremendously, and I want you to know that everything you\x27ve shared will be passed along to help us improve our services."

/-- openai-client.ts `generateClosingMessage(context, summary?)`: one of
three templates chosen by `Math.random()`, modelled by the index `pick`. -/
def generateClosingMessage (ctx : ConversationContext) (pick : Fin 3) : String :=
  if pick.val = 0 then closingMessage0 ctx.customerName ctx.bankName
  else if pick.val = 1 then closingMessage1 ctx.customerName
  else closingMessage2 ctx.customerName

/-- openai-client.ts `optimizeForSpeech`: returns the text as-is. -/
def optimizeForSpeech (text : String) : String := text

/-- call-orchestrator.ts `formatTranscript`: role-labelled turns excluding
system messages, joined by blank lines. -/
def formatTranscript (history : List Msg) : String :=
  String.intercalate "\n\n"
    ((history.filter (fun m => m.role ≠ Role.system)).map
      (fun m => (if m.role = Role.user then "Customer" else "AI Assistant") ++ ": " ++ m.content))

/-- call-orchestrator.ts `handleCallCompletion(callId)`: load the
conversation (missing means no-op), write the transcript back onto the call
(the summary, sentiment and keyIssues fields the orchestrator also passes
are not columns `updateCallStatus` writes, and the recording/transcription
fetches are read-only and never throw), then purge the conversation.  The
body's try/catch swallows errors, so the outcome never carries a
rejection. -/
def handleCallCompletion (db : Db) (callId : String) : Outcome :=
  match getConversationByCallId db callId with
  | none => ⟨db, [Effect.completionHandling callId], none⟩
  | some context =>
    let db1 := updateCallStatus db callId CallStatus.completed
      { transcript := some (formatTranscript context.conversationHistory) }
    ⟨deleteConversation db1 callId, [Effect.completionHandling callId], none⟩

/-- call-orchestrator.ts `handleCallFailure(callId)`: load the call (missing
means return), load the owning campaign (a missing campaign makes the
single-row lookup throw, so the trailing conversation purge is skipped);
when retries remain and the failure reason matches an enabled retry
condition, register the delayed re-queue continuation; finally purge the
conversation. -/
def handleCallFailure (db : Db) (callId : String) : Outcome :=
  match getCallById db callId with
  | none => ⟨db, [Effect.failureHandling callId], none⟩
  | some call =>
    match getCampaignById db call.campaignId with
    | .error e => ⟨db, [Effect.failureHandling callId], some e⟩
    | .ok none => ⟨db, [Effect.failureHandling callId], none⟩
    | .ok (some campaign) =>
      let retryEffects :=
        if call.retryCount < call.maxRetries &&
            shouldRetryCall (call.errorMessage.getD "") campaign.retrySettings then
          [Effect.scheduleRequeue callId (campaign.retrySettings.retryDelay * 60 * 1000)]
        else []
      ⟨deleteConversation db callId, Effect.failureHandling callId :: retryEffects, none⟩

/-- The delayed continuation `handleCallFailure` registers with setTimeout:
`updateCallStatus(callId, pending)` with no further column updates. -/
def runRequeue (db : Db) (callId : String) : Db :=
  updateCallStatus db callId CallStatus.pending {}

/-- The calls `handleTwilioWebhook` searches for the provider identifier:
those currently in ringing or answered status. -/
def inFlightCalls (db : Db) : List Call :=
  getCallsByStatus db CallStatus.ringing ++ getCallsByStatus db CallStatus.answered

/-- The webhook's lookup of the call matching the provider identifier. -/
def findInFlight (db : Db) (callSid : String) : Option Call :=
  (inFlightCalls db).find? (fun c => c.twilioSid = some callSid)

/-- call-orchestrator.ts `handleTwilioWebhook(payload)`: find the in-flight
call carrying the provider identifier (no match means log and return), map
the provider status to the internal status with its side-band column
updates, apply the update, and run completion handling on completed or
failure handling on failed. -/
def handleTwilioWebhook (db : Db) (callSid : String) (providerStatus : String)
    (durationVal : Option Nat) (now : Nat) : Outcome :=
  match findInFlight db callSid with
  | none => ⟨db, [], none⟩
  | some call =>
    if providerStatus = "ringing" then
      ⟨updateCallStatus db call.id CallStatus.ringing {}, [], none⟩
    else if providerStatus = "in-progress" then
      ⟨updateCallStatus db call.id CallStatus.answered {}, [], none⟩
    else if providerStatus = "completed" then
      handleCallCompletion
        (updateCallStatus db call.id CallStatus.completed { endedAt := some now, duration := durationVal })
        call.id
    else if providerStatus = "busy" || providerStatus = "no-answer" || providerStatus = "failed" then
      handleCallFailure
        (updateCallStatus db call.id CallStatus.failed { endedAt := some now, errorMessage := some providerStatus })
        call.id
    else if providerStatus = "canceled" then
      ⟨updateCallStatus db call.id CallStatus.cancelled { endedAt := some now }, [], none⟩
    else ⟨db, [], none⟩

/-- twilio-client.ts `makeCall` result: `{ success, twilioSid?, error? }`.
Supplied as an oracle for the external telephony provider. -/
structure GatewayResult where
  success : Bool
  twilioSid : Option String := none
  error : Option String := none
deriving DecidableEq, Repr

/-- call-orchestrator.ts `processIndividualCall(call)`: transition the call
to calling stamping startedAt, load the customer (the single-row lookup
throws when the customer is missing, landing in the catch that records the
call failed with the error text; the explicit not-found guard in the source
is unreachable), build and persist a fresh ConversationContext, and dial
through the gateway: on success store the provider id and transition to
ringing, otherwise record failed with the gateway error text and purge the
context.  Phone-number formatting is a pure normalization irrelevant to the
oracle-supplied gateway result and is not modelled. -/
def processIndividualCall (bankName botName : String) (gw : GatewayResult) (now : Nat)
    (db : Db) (call : Call) : Outcome :=
  let db1 := updateCallStatus db call.id CallStatus.calling { startedAt := some now }
  match getCustomerById db1 call.customerId with
  | .error e =>
    ⟨updateCallStatus db1 call.id CallStatus.failed { errorMessage := some e }, [], none⟩
  | .ok none =>
    ⟨updateCallStatus db1 call.id CallStatus.failed { errorMessage := some "Customer data not found" }, [], none⟩
  | .ok (some customer) =>
    let context : ConversationContext :=
      { callId := call.id
        campaignId := call.campaignId
        customerName := customer.name
        customerReason := customer.reason.getD ""
        services := call.services
        bankName := bankName
        botName := botName
        conversationHistory := [] }
    let db2 := insertConversation db1 context
    if gw.success && gw.twilioSid.isSome then
      ⟨updateCallStatus db2 call.id CallStatus.ringing { twilioSid := gw.twilioSid },
        [Effect.dialed call.id], none⟩
    else
      ⟨deleteConversation (updateCallStatus db2 call.id CallStatus.failed { errorMessage := gw.error }) call.id,
        [Effect.dialed call.id], none⟩

/-- Modelled from the spec: the conditional admission update the spec's
section 5 demands of the Data Store — set status=calling where id=X and
status=pending — succeeding exactly when the call is still pending.  This
definition follows the spec's words and exists only to compare against the
repository's unconditional `updateCallStatus`. -/
def updateCallStatusConditional (db : Db) (id : String) (u : CallUpdates) : Db × Bool :=
  if (db.calls.filter (fun c => c.id = id && c.status = CallStatus.pending)).isEmpty then
    (db, false)
  else
    ({ db with
        calls := db.calls.map
          (fun c => if c.id = id && c.status = CallStatus.pending then applyCallUpdate CallStatus.calling u c else c) },
      true)

/-- Environment of one conversational turn: the LLM oracle, the random
closing-template index, the clock, the process environment names, and
injected Data Store faults (each flag makes the corresponding persistence
operation throw, exercising the catch-all of `handleCustomerInput`). -/
structure TurnEnv where
  llm : LlmResult
  closingPick : Fin 3
  now : Nat
  bankName : String := "Your Bank"
  botName : String := "Customer Care Assistant"
  throwGetConversation : Bool := false
  throwInsertConversation : Bool := false
  throwUpdateHistory : Bool := false
deriving DecidableEq, Repr

/-- Whether the try-block of `handleCustomerInput` returned a reply or
threw. -/
inductive TurnOutcome
  | ok (reply : String)
  | threw (e : String)
deriving DecidableEq, Repr

/-- The early-return reply of `handleCustomerInput` when call or customer
data cannot be found during on-demand context reconstruction. -/
def techIssueMessage : String :=
  "I\x27m sorry, there seems to be a technical issue. Could you please repeat that?"

/-- The catch-all reply of `handleCustomerInput`. -/
def fallbackApology : String :=
  "I apologize for the technical difficulty. Could you please continue with what you were saying?"

/-- The body of `handleCustomerInput` from the point where a
ConversationContext is in hand: count prior customer turns; at 3 or more,
force the call to end (closing message appended to history, history
persisted, completion scheduled after 5000 ms, closing returned) without
invoking the dialogue engine; otherwise delegate to `generateResponse`,
persist the updated history, and either schedule completion returning a
closing message (engine signalled end-of-call) or return the
speech-optimized reply. -/
def continueTurn (env : TurnEnv) (db : Db) (callId audioInput : String)
    (context : ConversationContext) : TurnOutcome × Db × List Effect :=
  let customerResponseCount := (context.conversationHistory.filter (fun m => m.role = Role.user)).length
  if 3 ≤ customerResponseCount then
    let closingMessage := generateClosingMessage context env.closingPick
    let history1 := context.conversationHistory ++ [⟨Role.assistant, closingMessage, env.now⟩]
    if env.throwUpdateHistory then
      (TurnOutcome.threw "PersistenceError: history update failed", db, [])
    else
      (TurnOutcome.ok closingMessage, updateConversationHistory db callId history1,
        [Effect.scheduleCompletion callId 5000])
  else
    let result := generateResponse env.llm audioInput context env.now
    let aiResponse := result.1
    let context2 := result.2
    if env.throwUpdateHistory then
      (TurnOutcome.threw "PersistenceError: history update failed", db, [Effect.engineGenerate audioInput])
    else
      let db1 := updateConversationHistory db callId context2.conversationHistory
      if aiResponse.shouldEndCall then
        (TurnOutcome.ok (generateClosingMessage context2 env.closingPick), db1,
          [Effect.engineGenerate audioInput, Effect.scheduleCompletion callId 5000])
      else
        (TurnOutcome.ok (optimizeForSpeech aiResponse.message), db1, [Effect.engineGenerate audioInput])

/-- The try-block of call-orchestrator.ts `handleCustomerInput(callId,
audioInput)`: load the stored context, reconstructing it on demand from the
Call and Customer records when absent (a missing call or a null customer
short-circuits with the technical-issue reply; the customer single-row
lookup throwing lands in the catch), then proceed with `continueTurn`. -/
def handleCustomerInputCore (env : TurnEnv) (db : Db) (callId audioInput : String) :
    TurnOutcome × Db × List Effect :=
  if env.throwGetConversation then
    (TurnOutcome.threw "PersistenceError: conversation load failed", db, [])
  else
    match getConversationByCallId db callId with
    | some context => continueTurn env db callId audioInput context
    | none =>
      match getCallById db callId with
      | none => (TurnOutcome.ok techIssueMessage, db, [])
      | some call =>
        match getCustomerById db call.customerId with
        | .error e => (TurnOutcome.threw e, db, [])
        | .ok none => (TurnOutcome.ok techIssueMessage, db, [])
        | .ok (some customer) =>
          let context : ConversationContext :=
            { callId := call.id
              campaignId := call.campaignId
              customerName := customer.name
              customerReason := customer.reason.getD ""
              services := call.services
              bankName := env.bankName
              botName := env.botName
              conversationHistory := [] }
          if env.throwInsertConversation then
            (TurnOutcome.threw "PersistenceError: conversation insert failed", db, [])
          else
            continueTurn env (insertConversation db context) callId audioInput context

/-- call-orchestrator.ts `handleCustomerInput`: the try-block wrapped in the
catch-all that converts any thrown error into the fallback apology so the
live call never drops dead air. -/
def handleCustomerInput (env : TurnEnv) (db : Db) (callId audioInput : String) :
    String × Db × List Effect :=
  match handleCustomerInputCore env db callId audioInput with
  | (TurnOutcome.ok reply, db1, effects) => (reply, db1, effects)
  | (TurnOutcome.threw _, db1, effects) => (fallbackApology, db1, effects)

/-- One iteration of the cancellation loop of `cancelCampaign`: calls in
calling, ringing or answered status are cancelled at the gateway (when a
provider id is stored) and set to cancelled. -/
def cancelCampaignStep (acc : Db × List Effect) (call : Call) : Db × List Effect :=
  if call.status = CallStatus.calling || call.status = CallStatus.ringing ||
      call.status = CallStatus.answered then
    let effects :=
      match call.twilioSid with
      | some sid => acc.2 ++ [Effect.gatewayCancel sid]
      | none => acc.2
    (updateCallStatus acc.1 call.id CallStatus.cancelled {}, effects)
  else acc

/-- call-orchestrator.ts `cancelCampaign(campaignId)`: set the campaign
cancelled, then walk the campaign's calls cancelling the live ones. -/
def cancelCampaign (db : Db) (campaignId : String) : Db × List Effect :=
  let db1 := updateCampaignStatus db campaignId CampaignStatus.cancelled
  (getCallsByCampaign db1 campaignId).foldl cancelCampaignStep (db1, [])

/-- The aggregate `getCampaignStatus` returns (the count fields; the echoed
campaign record and raw status map are omitted). -/
structure CampaignStatusView where
  callsTotal : Nat
  completedCount : Nat
  failedCount : Nat
  inProgress : Nat
  pendingCount : Nat
deriving DecidableEq, Repr

/-- call-orchestrator.ts `getCampaignStatus(campaignId)`: load the campaign
(`getCampaignById` throws when it is absent, since the single-row lookup
errors on zero rows; the null guard below it is unreachable), then derive
status counts by grouping the campaign's calls. -/
def getCampaignStatus (db : Db) (campaignId : String) : Except String (Option CampaignStatusView) :=
  match getCampaignById db campaignId with
  | .error e => .error e
  | .ok none => .ok none
  | .ok (some _) =>
    let calls := getCallsByCampaign db campaignId
    let countOf := fun (s : CallStatus) => (calls.filter (fun c => c.status = s)).length
    .ok (some
      { callsTotal := calls.length
        completedCount := countOf CallStatus.completed
        failedCount := countOf CallStatus.failed
        inProgress := countOf CallStatus.calling + countOf CallStatus.ringing + countOf CallStatus.answered
        pendingCount := countOf CallStatus.pending })

/-- The call record currently stored under an id. -/
def callRecord (db : Db) (id : String) : Option Call :=
  db.calls.find? (fun c => c.id = id)

/-- Call ids are unique in the store (the primary-key invariant of the
calls table). -/
def uniqueCallIds (db : Db) : Prop :=
  (db.calls.map (fun c => c.id)).Nodup

/- Concrete fixtures used by witnesses and counterexamples. -/

/-- A retry policy enabling every retry condition (the defaults of
`startCampaign`). -/
def sampleRetry : RetrySettings := ⟨3, 5, true, true, true⟩

/-- A running campaign with the default retry policy. -/
def sampleCampaign : Campaign := ⟨"camp1", CampaignStatus.running, sampleRetry⟩

/-- A customer record. -/
def sampleCustomer : Customer := ⟨"cust1", "Alex", "+15550001111", some "credit card fees"⟩

/-- A pending call for the sample campaign. -/
def sampleCall : Call :=
  { id := "call1", customerId := "cust1", customerName := "Alex",
    customerPhone := "+15550001111", campaignId := "camp1",
    status := CallStatus.pending, maxRetries := 3 }

/-- The sample call once dialing succeeded: ringing with a provider id. -/
def ringingCall : Call := { sampleCall with status := CallStatus.ringing, twilioSid := some "SID1" }

/-- Store holding the pending sample call. -/
def sampleDb : Db := ⟨[sampleCustomer], [sampleCampaign], [sampleCall], []⟩

/-- Store holding the ringing sample call. -/
def ringingDb : Db := ⟨[sampleCustomer], [sampleCampaign], [ringingCall], []⟩

/-- A conversation in which the customer has already spoken 3 times. -/
def capCtx : ConversationContext :=
  { callId := "call1", campaignId := "camp1", customerName := "Alex",
    customerReason := "credit card fees", services := ["credit card"],
    bankName := "Your Bank", botName := "Customer Care Assistant",
    conversationHistory :=
      [⟨Role.user, "hello", 1⟩, ⟨Role.assistant, "hi", 2⟩,
       ⟨Role.user, "fees were high", 3⟩, ⟨Role.assistant, "I see", 4⟩,
       ⟨Role.user, "so I left", 5⟩] }

/-- A conversation in which the customer has spoken twice. -/
def twoTurnCtx : ConversationContext :=
  { capCtx with conversationHistory := capCtx.conversationHistory.take 4 }

/-- Store holding the ringing sample call together with its conversation. -/
def ringingConvDb : Db := ⟨[sampleCustomer], [sampleCampaign], [ringingCall], [capCtx]⟩

/-- Store holding the ringing sample call with the two-turn conversation. -/
def twoTurnDb : Db := ⟨[sampleCustomer], [sampleCampaign], [ringingCall], [twoTurnCtx]⟩

/-- A successful gateway dial returning provider id SID1. -/
def gwOk : GatewayResult := ⟨true, some "SID1", none⟩

/- Helper lemmas about the Data Store operations. -/

/-- Updating the row keyed `id` rewrites the first record found under `id`
by `f`, for any row function preserving ids. -/
theorem find_update_list (l : List Call) (id : String) (f : Call → Call)
    (hf : ∀ c, (f c).id = c.id) :
    (l.map (fun c => if c.id = id then f c else c)).find? (fun c => c.id = id)
      = (l.find? (fun c => c.id = id)).map f := by
  induction l with
  | nil => rfl
  | cons a l ih =>
    by_cases h : a.id = id
    · simp [List.find?_cons, h, hf]
    · simp [List.find?_cons, h, ih]

/-- Updating the row keyed `id` leaves the record found under a different
key unchanged, for any row function preserving ids. -/
theorem find_update_list_ne (l : List Call) (id cid : String) (hne : cid ≠ id)
    (f : Call → Call) (hf : ∀ c, (f c).id = c.id) :
    (l.map (fun c => if c.id = id then f c else c)).find? (fun c => c.id = cid)
      = l.find? (fun c => c.id = cid) := by
  induction l with
  | nil => rfl
  | cons a l ih =>
    have hga : ((if a.id = id then f a else a)).id = a.id := by
      by_cases h : a.id = id <;> simp [h, hf]
    by_cases h2 : a.id = cid
    · have hne2 : ¬ a.id = id := fun hh => hne (h2.symm.trans hh)
      simp [List.find?_cons, hga, h2, hne2, hne]
    · simp [List.find?_cons, hga, h2, ih]

/-- `applyCallUpdate` never changes the id column. -/
theorem applyCallUpdate_id (s : CallStatus) (u : CallUpdates) (c : Call) :
    (applyCallUpdate s u c).id = c.id := rfl

/-- `updateCallStatus` on the looked-up key applies the row update to the
stored record. -/
theorem callRecord_updateCallStatus_self (db : Db) (id : String) (s : CallStatus)
    (u : CallUpdates) (c : Call) (h : callRecord db id = some c) :
    callRecord (updateCallStatus db id s u) id = some (applyCallUpdate s u c) := by
  unfold callRecord at h ⊢
  unfold updateCallStatus
  show (db.calls.map (fun c => if c.id = id then applyCallUpdate s u c else c)).find?
      (fun c => c.id = id) = some (applyCallUpdate s u c)
  rw [find_update_list db.calls id (applyCallUpdate s u) (fun c => rfl), h]
  rfl

/-- `updateCallStatus` does not touch records under other keys. -/
theorem callRecord_updateCallStatus_ne (db : Db) (id cid : String) (s : CallStatus)
    (u : CallUpdates) (hne : cid ≠ id) :
    callRecord (updateCallStatus db id s u) cid = callRecord db cid := by
  unfold callRecord updateCallStatus
  exact find_update_list_ne db.calls id cid hne _ (fun c => rfl)

/-- A looked-up record is a member of the table and carries the key. -/
theorem callRecord_mem (db : Db) (id : String) (c : Call) (h : callRecord db id = some c) :
    c ∈ db.calls ∧ c.id = id := by
  unfold callRecord at h
  refine ⟨List.mem_of_find?_eq_some h, ?_⟩
  have := List.find?_some h
  simpa using this

/-- With unique ids, members are determined by their id. -/
theorem unique_mem_eq (db : Db) (huniq : uniqueCallIds db) (a b : Call)
    (ha : a ∈ db.calls) (hb : b ∈ db.calls) (hid : a.id = b.id) : a = b := by
  exact List.inj_on_of_nodup_map huniq ha hb hid

/-- With unique ids, every member is the record found under its id. -/
theorem callRecord_of_mem (db : Db) (huniq : uniqueCallIds db) (c : Call)
    (hc : c ∈ db.calls) : callRecord db c.id = some c := by
  unfold callRecord
  have hex : (db.calls.find? (fun x => x.id = c.id)).isSome := by
    rw [List.find?_isSome]
    exact ⟨c, hc, by simp⟩
  obtain ⟨d, hd⟩ := Option.isSome_iff_exists.mp hex
  have hdm := List.mem_of_find?_eq_some hd
  have hdid : d.id = c.id := by simpa using List.find?_some hd
  rw [hd, unique_mem_eq db huniq d c hdm hc hdid]

/-- Members of the in-flight search set are stored calls in ringing or
answered status. -/
theorem inFlight_mem (db : Db) (f : Call) (h : f ∈ inFlightCalls db) :
    f ∈ db.calls ∧ (f.status = CallStatus.ringing ∨ f.status = CallStatus.answered) := by
  unfold inFlightCalls getCallsByStatus at h
  rcases List.mem_append.mp h with h1 | h1
  · have h2 := List.mem_of_mem_take h1
    have h3 := List.mem_filter.mp h2
    exact ⟨h3.1, Or.inl (by simpa using h3.2)⟩
  · have h2 := List.mem_of_mem_take h1
    have h3 := List.mem_filter.mp h2
    exact ⟨h3.1, Or.inr (by simpa using h3.2)⟩

/-- The call the webhook finds is a stored in-flight call carrying the
searched provider id. -/
theorem findInFlight_mem (db : Db) (sid : String) (f : Call)
    (h : findInFlight db sid = some f) :
    f ∈ db.calls ∧ (f.status = CallStatus.ringing ∨ f.status = CallStatus.answered) ∧
      f.twilioSid = some sid := by
  unfold findInFlight at h
  have hm := List.mem_of_find?_eq_some h
  have hp := List.find?_some h
  obtain ⟨h1, h2⟩ := inFlight_mem db f hm
  exact ⟨h1, h2, by simpa using hp⟩

/-- Deleting a conversation really purges it. -/
theorem getConversation_delete_self (db : Db) (callId : String) :
    getConversationByCallId (deleteConversation db callId) callId = none := by
  unfold getConversationByCallId deleteConversation
  rw [List.find?_eq_none]
  intro c hc
  have := (List.mem_filter.mp hc).2
  simp at this
  simp [this]

/-- `updateCallStatus` leaves the conversations table unchanged. -/
theorem conversations_updateCallStatus (db : Db) (id : String) (s : CallStatus) (u : CallUpdates) :
    (updateCallStatus db id s u).conversations = db.conversations := rfl

/-- `updateCallStatus` leaves the multiset of call ids unchanged, hence
preserves key uniqueness. -/
theorem uniqueCallIds_updateCallStatus (db : Db) (id : String) (s : CallStatus) (u : CallUpdates)
    (h : uniqueCallIds db) : uniqueCallIds (updateCallStatus db id s u) := by
  unfold uniqueCallIds updateCallStatus at *
  show ((db.calls.map (fun c => if c.id = id then applyCallUpdate s u c else c)).map
      (fun c => c.id)).Nodup
  rw [List.map_map]
  have hmap : db.calls.map ((fun (c : Call) => c.id) ∘ (fun c => if c.id = id then applyCallUpdate s u c else c))
      = db.calls.map (fun c => c.id) := by
    apply List.map_congr_left
    intro c _
    by_cases hc : c.id = id <;> simp [hc, Function.comp, applyCallUpdate_id]
  rw [hmap]
  exact h

/-- `deleteConversation` leaves the calls table unchanged. -/
theorem callRecord_deleteConversation (db : Db) (i j : String) :
    callRecord (deleteConversation db i) j = callRecord db j := rfl

/-- `insertConversation` leaves the calls table unchanged. -/
theorem callRecord_insertConversation (db : Db) (ctx : ConversationContext) (j : String) :
    callRecord (insertConversation db ctx) j = callRecord db j := rfl

/-- `updateCallStatus` leaves the customers table unchanged, so customer
lookups commute with it. -/
theorem getCustomerById_updateCallStatus (db : Db) (i : String) (s : CallStatus)
    (u : CallUpdates) (x : String) :
    getCustomerById (updateCallStatus db i s u) x = getCustomerById db x := rfl

/-- `handleCallFailure` never touches the calls table. -/
theorem callRecord_handleCallFailure (db : Db) (callId cid : String) :
    callRecord (handleCallFailure db callId).db cid = callRecord db cid := by
  unfold handleCallFailure
  split
  · rfl
  · split
    · rfl
    · rfl
    · exact callRecord_deleteConversation db callId cid

/-- `handleCallCompletion` touches only the record keyed by its callId. -/
theorem callRecord_handleCallCompletion_ne (db : Db) (callId cid : String) (hne : cid ≠ callId) :
    callRecord (handleCallCompletion db callId).db cid = callRecord db cid := by
  unfold handleCallCompletion
  cases getConversationByCallId db callId with
  | none => rfl
  | some context =>
    show callRecord (deleteConversation (updateCallStatus db callId CallStatus.completed _) callId) cid = _
    rw [callRecord_deleteConversation]
    exact callRecord_updateCallStatus_ne _ _ _ _ _ hne

/-- The cancellation loop never touches the conversations table. -/
theorem conversations_cancelFold (l : List Call) (acc : Db × List Effect) :
    (l.foldl cancelCampaignStep acc).1.conversations = acc.1.conversations := by
  induction l generalizing acc with
  | nil => rfl
  | cons a l ih =>
    rw [List.foldl_cons, ih]
    unfold cancelCampaignStep
    split
    · rfl
    · rfl

/-- Claim C2: a busy webhook on a retry-eligible call does transition it to
failed and the delayed re-queue does return it to pending — but the
re-queue continuation is `updateCallStatus(callId, pending)` with no
retry-count column among the updates, so retryCount stays 0 instead of
becoming 1 as the claim states. -/
theorem busy_requeue_does_not_increment_retryCount :
    Effect.scheduleRequeue "call1" 300000 ∈ (handleTwilioWebhook ringingDb "SID1" "busy" none 77).effects ∧
    (callRecord (handleTwilioWebhook ringingDb "SID1" "busy" none 77).db "call1").map (fun c => c.status)
      = some CallStatus.failed ∧
    (callRecord (runRequeue (handleTwilioWebhook ringingDb "SID1" "busy" none 77).db "call1") "call1").map
        (fun c => (c.status, c.retryCount))
      = some (CallStatus.pending, 0) := by
  decide

/-- Claim C3: the pending-to-calling transition is the unconditional
`updateCallStatus`, keyed on id alone.  A second scheduling pass that also
read the call as pending admits and dials it again even though the call
already left pending — the record is ringing after the first pass, yet the
second pass still dials — while the conditional update the spec demands
would have refused the second admission. -/
theorem admission_unconditional_double_dial :
    Effect.dialed "call1" ∈ (processIndividualCall "Your Bank" "Customer Care Assistant" gwOk 5 sampleDb sampleCall).effects ∧
    (callRecord (processIndividualCall "Your Bank" "Customer Care Assistant" gwOk 5 sampleDb sampleCall).db "call1").map
        (fun c => c.status) = some CallStatus.ringing ∧
    Effect.dialed "call1" ∈ (processIndividualCall "Your Bank" "Customer Care Assistant" gwOk 6
      (processIndividualCall "Your Bank" "Customer Care Assistant" gwOk 5 sampleDb sampleCall).db sampleCall).effects ∧
    (updateCallStatusConditional
      (processIndividualCall "Your Bank" "Customer Care Assistant" gwOk 5 sampleDb sampleCall).db "call1" {}).2
      = false := by
  decide

/-- Claim C7: for a campaignId with no campaign record, `getCampaignStatus`
does not return null: the single-row campaign lookup errors on zero rows
and `getCampaignById` rethrows, so the error propagates to the caller. -/
theorem missing_campaign_status_raises :
    getCampaignStatus (Db.mk [sampleCustomer] [] [] []) "camp1"
      = Except.error "PGRST116: zero rows returned" ∧
    getCampaignStatus ringingDb "campX"
      = Except.error "PGRST116: zero rows returned" :=
  ⟨rfl, rfl⟩

/-- Claim C8, counterexample: a canceled webhook moves the call to the
terminal cancelled status but triggers neither completion nor failure
handling, so the stored ConversationContext survives; `cancelCampaign`
likewise cancels the live call without purging its conversation. -/
theorem cancel_keeps_conversation_context :
    ((handleTwilioWebhook ringingConvDb "SID1" "canceled" none 77).db.conversations = [capCtx] ∧
      (callRecord (handleTwilioWebhook ringingConvDb "SID1" "canceled" none 77).db "call1").map
        (fun c => c.status) = some CallStatus.cancelled) ∧
    ((cancelCampaign ringingConvDb "camp1").1.conversations = [capCtx] ∧
      (callRecord (cancelCampaign ringingConvDb "camp1").1 "call1").map
        (fun c => c.status) = some CallStatus.cancelled) := by
  decide

/-- Claim C8 (amended): the ConversationContext is purged when completion
handling runs (after which no conversation is stored for the call) and when
failure handling runs to the end (the call record present and its owning
campaign found); but cancellation — whether through the canceled webhook or
through `cancelCampaign` — never deletes the conversation. -/
theorem context_purged_on_completion_and_failure :
    (∀ (db : Db) (callId : String),
      getConversationByCallId (handleCallCompletion db callId).db callId = none) ∧
    (∀ (db : Db) (callId : String) (call : Call) (campaign : Campaign),
      getCallById db callId = some call →
      getCampaignById db call.campaignId = Except.ok (some campaign) →
      getConversationByCallId (handleCallFailure db callId).db callId = none) ∧
    (∀ (db : Db) (campaignId : String),
      (cancelCampaign db campaignId).1.conversations = db.conversations) ∧
    (∀ (db : Db) (sid : String) (dur : Option Nat) (now : Nat),
      (handleTwilioWebhook db sid "canceled" dur now).db.conversations = db.conversations) := by
  refine ⟨?_, ?_, ?_, ?_⟩
  · intro db callId
    unfold handleCallCompletion
    cases h : getConversationByCallId db callId with
    | none => exact h
    | some context => exact getConversation_delete_self _ callId
  · intro db callId call campaign hcall hcamp
    unfold handleCallFailure
    simp only [hcall]
    rw [hcamp]
    exact getConversation_delete_self db callId
  · intro db campaignId
    unfold cancelCampaign
    rw [conversations_cancelFold]
    rfl
  · intro db sid dur now
    unfold handleTwilioWebhook
    cases h : findInFlight db sid with
    | none => rfl
    | some f => rfl

/-- Claim C8 (amended), witness for the failure-path conjunct. -/
theorem context_purged_on_completion_and_failure_witness :
    getConversationByCallId (handleCallFailure ringingConvDb "call1").db "call1" = none :=
  context_purged_on_completion_and_failure.2.1 ringingConvDb "call1" ringingCall sampleCampaign
    (by decide) rfl

/-- Claim C9, counterexample: a gateway dial failure whose error text and
retry policy satisfy every retry condition still schedules no re-queue —
`processIndividualCall` records the call failed, purges the context, and
returns without invoking failure handling, as the effect trace shows. -/
theorem gateway_failure_not_requeued :
    let out := processIndividualCall "Your Bank" "Customer Care Assistant"
      ⟨false, none, some "busy"⟩ 5 sampleDb sampleCall
    shouldRetryCall "busy" sampleRetry = true ∧
    sampleCall.retryCount < sampleCall.maxRetries ∧
    (callRecord out.db "call1").map (fun c => (c.status, c.errorMessage))
      = some (CallStatus.failed, some "busy") ∧
    getConversationByCallId out.db "call1" = none ∧
    out.effects = [Effect.dialed "call1"] := by
  decide

/-- Claim C9 (amended): on a gateway dial failure the call is recorded
failed with the gateway's error text and the ConversationContext is purged;
however, no re-queue is scheduled and failure handling is not invoked —
retry never happens for dial-time gateway failures, whatever the campaign
policy says. -/
theorem gateway_failure_failed_and_purged (bank bot : String) (gw : GatewayResult)
    (now : Nat) (db : Db) (call : Call) (customer : Customer) (msg : String)
    (hrec : callRecord db call.id = some call)
    (hcust : getCustomerById db call.customerId = Except.ok (some customer))
    (hgw : (gw.success && gw.twilioSid.isSome) = false)
    (herr : gw.error = some msg) :
    callRecord (processIndividualCall bank bot gw now db call).db call.id
      = some { call with status := CallStatus.failed, startedAt := some now, errorMessage := some msg } ∧
    getConversationByCallId (processIndividualCall bank bot gw now db call).db call.id = none ∧
    (processIndividualCall bank bot gw now db call).effects = [Effect.dialed call.id] ∧
    (processIndividualCall bank bot gw now db call).thrown = none := by
  have hcust1 : getCustomerById (updateCallStatus db call.id CallStatus.calling { startedAt := some now })
      call.customerId = Except.ok (some customer) := hcust
  unfold processIndividualCall
  simp only [hcust1, hgw, Bool.false_eq_true, if_false]
  refine ⟨?_, ?_, by trivial, by trivial⟩
  · rw [callRecord_deleteConversation, herr]
    have h1 := callRecord_updateCallStatus_self db call.id CallStatus.calling
      { startedAt := some now } call hrec
    have h2 := callRecord_updateCallStatus_self
      (insertConversation (updateCallStatus db call.id CallStatus.calling { startedAt := some now })
        { callId := call.id, campaignId := call.campaignId, customerName := customer.name,
          customerReason := customer.reason.getD "", services := call.services, bankName := bank,
          botName := bot, conversationHistory := [] })
      call.id CallStatus.failed { errorMessage := some msg }
      (applyCallUpdate CallStatus.calling { startedAt := some now } call)
      ((callRecord_insertConversation _ _ _).trans h1)
    exact h2.trans (by rfl)
  · exact getConversation_delete_self _ call.id

/-- Claim C9 (amended), witness. -/
theorem gateway_failure_failed_and_purged_witness :
    callRecord (processIndividualCall "Your Bank" "Customer Care Assistant"
        ⟨false, none, some "busy"⟩ 5 sampleDb sampleCall).db sampleCall.id
      = some { sampleCall with status := CallStatus.failed, startedAt := some 5, errorMessage := some "busy" } ∧
    getConversationByCallId (processIndividualCall "Your Bank" "Customer Care Assistant"
        ⟨false, none, some "busy"⟩ 5 sampleDb sampleCall).db sampleCall.id = none ∧
    (processIndividualCall "Your Bank" "Customer Care Assistant"
        ⟨false, none, some "busy"⟩ 5 sampleDb sampleCall).effects = [Effect.dialed sampleCall.id] ∧
    (processIndividualCall "Your Bank" "Customer Care Assistant"
        ⟨false, none, some "busy"⟩ 5 sampleDb sampleCall).thrown = none :=
  gateway_failure_failed_and_purged "Your Bank" "Customer Care Assistant"
    ⟨false, none, some "busy"⟩ 5 sampleDb sampleCall sampleCustomer "busy" rfl rfl rfl rfl

/-- The sample call after completion. -/
def completedCall : Call :=
  { sampleCall with status := CallStatus.completed, twilioSid := some "SID1", endedAt := some 50 }

/-- Store holding the completed sample call. -/
def completedDb : Db := ⟨[sampleCustomer], [sampleCampaign], [completedCall], []⟩

/-- Claim C5: a call in a terminal status is never changed by a webhook —
the webhook searches only ringing and answered calls for the provider
identifier, so a terminal call is never the match and its record survives
untouched; and when no in-flight call matches, the webhook is a no-op
rather than an error. -/
theorem terminal_status_immutable :
    (∀ (db : Db) (sid st : String) (dur : Option Nat) (now : Nat) (cid : String) (c : Call),
      uniqueCallIds db → callRecord db cid = some c →
      (c.status = CallStatus.completed ∨ c.status = CallStatus.failed ∨ c.status = CallStatus.cancelled) →
      callRecord (handleTwilioWebhook db sid st dur now).db cid = some c) ∧
    (∀ (db : Db) (sid st : String) (dur : Option Nat) (now : Nat),
      findInFlight db sid = none →
      handleTwilioWebhook db sid st dur now = ⟨db, [], none⟩) := by
  constructor
  · intro db sid st dur now cid c huniq hc hterm
    cases hf : findInFlight db sid with
    | none =>
      unfold handleTwilioWebhook
      rw [hf]
      exact hc
    | some f =>
      obtain ⟨hfm, hfst, _⟩ := findInFlight_mem db sid f hf
      obtain ⟨hcm, hcid⟩ := callRecord_mem db cid c hc
      have hne : cid ≠ f.id := by
        intro he
        have : c = f := unique_mem_eq db huniq c f hcm hfm (hcid.trans he)
        rcases hfst with h | h <;> rcases hterm with ht | ht | ht <;>
          rw [this, h] at ht <;> exact CallStatus.noConfusion ht
      unfold handleTwilioWebhook
      rw [hf]
      split_ifs with h1 h2 h3 h4 h5
      · rw [callRecord_updateCallStatus_ne db f.id cid _ _ hne]
        exact hc
      · rw [callRecord_updateCallStatus_ne db f.id cid _ _ hne]
        exact hc
      · rw [callRecord_handleCallCompletion_ne _ f.id cid hne,
          callRecord_updateCallStatus_ne db f.id cid _ _ hne]
        exact hc
      · rw [callRecord_handleCallFailure _ f.id cid,
          callRecord_updateCallStatus_ne db f.id cid _ _ hne]
        exact hc
      · rw [callRecord_updateCallStatus_ne db f.id cid _ _ hne]
        exact hc
      · exact hc
  · intro db sid st dur now hf
    unfold handleTwilioWebhook
    rw [hf]

/-- Claim C5, witness: a completed call is untouched by a late completed
webhook carrying its provider id, and a webhook with no in-flight match is
a no-op. -/
theorem terminal_status_immutable_witness :
    callRecord (handleTwilioWebhook completedDb "SID1" "completed" (some 10) 99).db "call1"
      = some completedCall ∧
    handleTwilioWebhook completedDb "SIDX" "completed" none 0 = ⟨completedDb, [], none⟩ :=
  ⟨terminal_status_immutable.1 completedDb "SID1" "completed" (some 10) 99 "call1" completedCall
      (by unfold uniqueCallIds; decide) (by decide) (by decide),
    terminal_status_immutable.2 completedDb "SIDX" "completed" none 0 (by decide)⟩

/-- Claim C4: the webhook maps the provider status vocabulary exactly per
the table — ringing to ringing; in-progress to answered; completed to
completed with endedAt stamped, duration taken from the payload when
provided, and completion handling run; busy, no-answer and failed to failed
with endedAt stamped, the provider status stored as errorMessage, and
failure handling run; canceled to cancelled with endedAt stamped; any other
provider status is a no-op. -/
theorem webhook_status_mapping (db : Db) (sid : String) (dur : Option Nat) (now : Nat) (f : Call)
    (hfind : findInFlight db sid = some f) (huniq : uniqueCallIds db) :
    (callRecord (handleTwilioWebhook db sid "ringing" dur now).db f.id
        = some { f with status := CallStatus.ringing } ∧
      (handleTwilioWebhook db sid "ringing" dur now).effects = []) ∧
    (callRecord (handleTwilioWebhook db sid "in-progress" dur now).db f.id
        = some { f with status := CallStatus.answered } ∧
      (handleTwilioWebhook db sid "in-progress" dur now).effects = []) ∧
    (∃ rec, callRecord (handleTwilioWebhook db sid "completed" dur now).db f.id = some rec ∧
      rec.status = CallStatus.completed ∧ rec.endedAt = some now ∧
      rec.duration = dur.orElse (fun _ => f.duration) ∧
      (handleTwilioWebhook db sid "completed" dur now).effects = [Effect.completionHandling f.id]) ∧
    (∀ st, (st = "busy" ∨ st = "no-answer" ∨ st = "failed") →
      callRecord (handleTwilioWebhook db sid st dur now).db f.id
        = some { f with status := CallStatus.failed, endedAt := some now, errorMessage := some st } ∧
      Effect.failureHandling f.id ∈ (handleTwilioWebhook db sid st dur now).effects) ∧
    (callRecord (handleTwilioWebhook db sid "canceled" dur now).db f.id
        = some { f with status := CallStatus.cancelled, endedAt := some now } ∧
      (handleTwilioWebhook db sid "canceled" dur now).effects = [] ∧
      (handleTwilioWebhook db sid "canceled" dur now).thrown = none) ∧
    (∀ st, st ≠ "ringing" → st ≠ "in-progress" → st ≠ "completed" → st ≠ "busy" →
      st ≠ "no-answer" → st ≠ "failed" → st ≠ "canceled" →
      handleTwilioWebhook db sid st dur now = ⟨db, [], none⟩) := by
  have hrec : callRecord db f.id = some f :=
    callRecord_of_mem db huniq f (findInFlight_mem db sid f hfind).1
  have hfail : ∀ st : String, st = "busy" ∨ st = "no-answer" ∨ st = "failed" →
      handleTwilioWebhook db sid st dur now
        = handleCallFailure
            (updateCallStatus db f.id CallStatus.failed { endedAt := some now, errorMessage := some st })
            f.id := by
    intro st hst
    unfold handleTwilioWebhook
    rw [hfind]
    rcases hst with h | h | h <;> subst h <;> rfl
  refine ⟨⟨?_, ?_⟩, ⟨?_, ?_⟩, ?_, ?_, ⟨?_, ?_, ?_⟩, ?_⟩
  · have hW : handleTwilioWebhook db sid "ringing" dur now
        = ⟨updateCallStatus db f.id CallStatus.ringing {}, [], none⟩ := by
      unfold handleTwilioWebhook; simp only [hfind]; rfl
    rw [hW]
    exact (callRecord_updateCallStatus_self db f.id _ _ f hrec).trans (by rfl)
  · have hW : handleTwilioWebhook db sid "ringing" dur now
        = ⟨updateCallStatus db f.id CallStatus.ringing {}, [], none⟩ := by
      unfold handleTwilioWebhook; simp only [hfind]; rfl
    rw [hW]
  · have hW : handleTwilioWebhook db sid "in-progress" dur now
        = ⟨updateCallStatus db f.id CallStatus.answered {}, [], none⟩ := by
      unfold handleTwilioWebhook; simp only [hfind]; rfl
    rw [hW]
    exact (callRecord_updateCallStatus_self db f.id _ _ f hrec).trans (by rfl)
  · have hW : handleTwilioWebhook db sid "in-progress" dur now
        = ⟨updateCallStatus db f.id CallStatus.answered {}, [], none⟩ := by
      unfold handleTwilioWebhook; simp only [hfind]; rfl
    rw [hW]
  · have hW : handleTwilioWebhook db sid "completed" dur now
        = handleCallCompletion
            (updateCallStatus db f.id CallStatus.completed { endedAt := some now, duration := dur })
            f.id := by
      unfold handleTwilioWebhook; simp only [hfind]; rfl
    rw [hW]
    have h1 := callRecord_updateCallStatus_self db f.id CallStatus.completed
      { endedAt := some now, duration := dur } f hrec
    unfold handleCallCompletion
    cases hconv : getConversationByCallId
        (updateCallStatus db f.id CallStatus.completed { endedAt := some now, duration := dur }) f.id with
    | none =>
      exact ⟨applyCallUpdate CallStatus.completed { endedAt := some now, duration := dur } f,
        h1, rfl, rfl, rfl, rfl⟩
    | some context =>
      refine ⟨applyCallUpdate CallStatus.completed
          { transcript := some (formatTranscript context.conversationHistory) }
          (applyCallUpdate CallStatus.completed { endedAt := some now, duration := dur } f),
        ?_, rfl, rfl, rfl, rfl⟩
      show callRecord (deleteConversation (updateCallStatus _ f.id CallStatus.completed _) f.id) f.id = _
      rw [callRecord_deleteConversation]
      exact callRecord_updateCallStatus_self _ f.id _ _ _ h1
  · intro st hst
    rw [hfail st hst]
    constructor
    · rw [callRecord_handleCallFailure]
      exact (callRecord_updateCallStatus_self db f.id _ _ f hrec).trans (by rfl)
    · unfold handleCallFailure
      split
      · exact List.mem_singleton.mpr rfl
      · split
        · exact List.mem_singleton.mpr rfl
        · exact List.mem_singleton.mpr rfl
        · exact List.mem_cons_self _ _
  · have hW : handleTwilioWebhook db sid "canceled" dur now
        = ⟨updateCallStatus db f.id CallStatus.cancelled { endedAt := some now }, [], none⟩ := by
      unfold handleTwilioWebhook; simp only [hfind]; rfl
    rw [hW]
    exact (callRecord_updateCallStatus_self db f.id _ _ f hrec).trans (by rfl)
  · have hW : handleTwilioWebhook db sid "canceled" dur now
        = ⟨updateCallStatus db f.id CallStatus.cancelled { endedAt := some now }, [], none⟩ := by
      unfold handleTwilioWebhook; simp only [hfind]; rfl
    rw [hW]
  · have hW : handleTwilioWebhook db sid "canceled" dur now
        = ⟨updateCallStatus db f.id CallStatus.cancelled { endedAt := some now }, [], none⟩ := by
      unfold handleTwilioWebhook; simp only [hfind]; rfl
    rw [hW]
  · intro st h1 h2 h3 h4 h5 h6 h7
    unfold handleTwilioWebhook
    simp only [hfind]
    simp [h1, h2, h3, h4, h5, h6, h7]

/-- Claim C4, witness: the ringing mapping at a concrete in-flight call. -/
theorem webhook_status_mapping_witness :
    callRecord (handleTwilioWebhook ringingDb "SID1" "ringing" (some 125) 99).db ringingCall.id
      = some { ringingCall with status := CallStatus.ringing } ∧
    (handleTwilioWebhook ringingDb "SID1" "ringing" (some 125) 99).effects = [] :=
  (webhook_status_mapping ringingDb "SID1" (some 125) 99 ringingCall (by decide)
    (by unfold uniqueCallIds; decide)).1

/-- A fault-free turn environment with a fixed LLM oracle and closing pick. -/
def envBase : TurnEnv := { llm := LlmResult.content none, closingPick := 0, now := 9 }

/-- Claim C1: with 3 or more customer turns already stored, the turn
handler forces the call to end — it returns the closing message, appends it
to the conversation history, persists that history, schedules completion
handling after 5 seconds, and the dialogue engine is never invoked (no
engine-generate event appears in the trace). -/
theorem turn_cap_forces_end (env : TurnEnv) (db : Db) (callId audioInput : String)
    (ctx : ConversationContext)
    (hctx : getConversationByCallId db callId = some ctx)
    (hcap : 3 ≤ (ctx.conversationHistory.filter (fun m => m.role = Role.user)).length)
    (hg : env.throwGetConversation = false)
    (hu : env.throwUpdateHistory = false) :
    handleCustomerInput env db callId audioInput =
      (generateClosingMessage ctx env.closingPick,
        updateConversationHistory db callId
          (ctx.conversationHistory ++ [⟨Role.assistant, generateClosingMessage ctx env.closingPick, env.now⟩]),
        [Effect.scheduleCompletion callId 5000]) ∧
    ∀ s, Effect.engineGenerate s ∉ (handleCustomerInput env db callId audioInput).2.2 := by
  have hcore : handleCustomerInputCore env db callId audioInput =
      (TurnOutcome.ok (generateClosingMessage ctx env.closingPick),
        updateConversationHistory db callId
          (ctx.conversationHistory ++ [⟨Role.assistant, generateClosingMessage ctx env.closingPick, env.now⟩]),
        [Effect.scheduleCompletion callId 5000]) := by
    unfold handleCustomerInputCore
    simp only [hg, Bool.false_eq_true, if_false, hctx]
    unfold continueTurn
    simp only [if_pos hcap, hu, Bool.false_eq_true, if_false]
  constructor
  · unfold handleCustomerInput
    rw [hcore]
  · intro s
    unfold handleCustomerInput
    rw [hcore]
    simp

/-- Claim C1, witness: the stored conversation already has 3 customer
turns. -/
theorem turn_cap_forces_end_witness :
    handleCustomerInput envBase ringingConvDb "call1" "one more thing" =
      (generateClosingMessage capCtx envBase.closingPick,
        updateConversationHistory ringingConvDb "call1"
          (capCtx.conversationHistory ++
            [⟨Role.assistant, generateClosingMessage capCtx envBase.closingPick, envBase.now⟩]),
        [Effect.scheduleCompletion "call1" 5000]) ∧
    ∀ s, Effect.engineGenerate s ∉ (handleCustomerInput envBase ringingConvDb "call1" "one more thing").2.2 :=
  turn_cap_forces_end envBase ringingConvDb "call1" "one more thing" capCtx rfl (by decide) rfl rfl

/-- Claim C6: a thrown error inside the turn handler never propagates — the
catch-all converts it to the fallback apology: shown for an injected fault
on the context load (the whole state is left untouched), an injected fault
on the history persist, and the throwing single-row customer lookup during
on-demand context reconstruction. -/
theorem turn_errors_degrade_to_apology :
    (∀ (env : TurnEnv) (db : Db) (callId audioInput : String),
      env.throwGetConversation = true →
      handleCustomerInput env db callId audioInput = (fallbackApology, db, [])) ∧
    (∀ (env : TurnEnv) (db : Db) (callId audioInput : String) (ctx : ConversationContext),
      env.throwGetConversation = false → env.throwUpdateHistory = true →
      getConversationByCallId db callId = some ctx →
      (handleCustomerInput env db callId audioInput).1 = fallbackApology) ∧
    (∀ (env : TurnEnv) (db : Db) (callId audioInput : String) (call : Call) (e : String),
      env.throwGetConversation = false →
      getConversationByCallId db callId = none →
      getCallById db callId = some call →
      getCustomerById db call.customerId = Except.error e →
      (handleCustomerInput env db callId audioInput).1 = fallbackApology) := by
  refine ⟨?_, ?_, ?_⟩
  · intro env db callId audioInput hg
    unfold handleCustomerInput handleCustomerInputCore
    simp only [hg, if_true]
  · intro env db callId audioInput ctx hg hu hctx
    unfold handleCustomerInput handleCustomerInputCore
    simp only [hg, Bool.false_eq_true, if_false, hctx]
    unfold continueTurn
    by_cases hcap : 3 ≤ (ctx.conversationHistory.filter (fun m => m.role = Role.user)).length
    · simp only [if_pos hcap, hu, if_true]
    · simp only [if_neg hcap, hu, if_true]
  · intro env db callId audioInput call e hg hctx hcall hcust
    unfold handleCustomerInput handleCustomerInputCore
    simp only [hg, Bool.false_eq_true, if_false, hctx, hcall, hcust]

/-- Claim C6, witness for the injected context-load fault. -/
theorem turn_errors_degrade_to_apology_witness :
    handleCustomerInput { envBase with throwGetConversation := true } sampleDb "call1" "hello"
      = (fallbackApology, sampleDb, []) :=
  turn_errors_degrade_to_apology.1 { envBase with throwGetConversation := true }
    sampleDb "call1" "hello" rfl

/-- Claim C10: on the dialogue-engine path, when the engine signals
end-of-call, the history persisted for the call is exactly the prior turns
plus the customer utterance and the engine reply — the closing message that
is returned is generated only after that persist and is never appended to
the stored history, unlike the hard-cap branch which appends its closing
message before persisting. -/
theorem engine_end_closing_not_appended (env : TurnEnv) (db : Db) (callId audioInput : String)
    (ctx : ConversationContext) (reply : String)
    (hctx : getConversationByCallId db callId = some ctx)
    (hcount : (ctx.conversationHistory.filter (fun m => m.role = Role.user)).length = 2)
    (hg : env.throwGetConversation = false)
    (hu : env.throwUpdateHistory = false)
    (hllm : env.llm = LlmResult.content (some reply))
    (hreply : reply ≠ "") :
    handleCustomerInput env db callId audioInput =
      (generateClosingMessage
          { ctx with conversationHistory :=
              ctx.conversationHistory ++ [⟨Role.user, audioInput, env.now⟩, ⟨Role.assistant, reply, env.now⟩] }
          env.closingPick,
        updateConversationHistory db callId
          (ctx.conversationHistory ++ [⟨Role.user, audioInput, env.now⟩, ⟨Role.assistant, reply, env.now⟩]),
        [Effect.engineGenerate audioInput, Effect.scheduleCompletion callId 5000]) := by
  have hcap : ¬ 3 ≤ (ctx.conversationHistory.filter (fun m => m.role = Role.user)).length := by
    rw [hcount]; decide
  unfold handleCustomerInput handleCustomerInputCore
  simp only [hg, Bool.false_eq_true, if_false, hctx]
  unfold continueTurn
  simp only [if_neg hcap]
  unfold generateResponse
  simp only [hllm, if_neg hreply, hu, Bool.false_eq_true, if_false]
  simp [List.filter_append, hcount, List.append_assoc]

/-- Claim C10, witness: a stored conversation with two customer turns, an
engine reply, and the resulting persisted history without the closing. -/
theorem engine_end_closing_not_appended_witness :
    handleCustomerInput { envBase with llm := LlmResult.content (some "Thanks for sharing") }
        twoTurnDb "call1" "the fees" =
      (generateClosingMessage
          { twoTurnCtx with conversationHistory :=
              twoTurnCtx.conversationHistory ++
                [⟨Role.user, "the fees", 9⟩, ⟨Role.assistant, "Thanks for sharing", 9⟩] }
          (0 : Fin 3),
        updateConversationHistory twoTurnDb "call1"
          (twoTurnCtx.conversationHistory ++
            [⟨Role.user, "the fees", 9⟩, ⟨Role.assistant, "Thanks for sharing", 9⟩]),
        [Effect.engineGenerate "the fees", Effect.scheduleCompletion "call1" 5000]) :=
  engine_end_closing_not_appended { envBase with llm := LlmResult.content (some "Thanks for sharing") }
    twoTurnDb "call1" "the fees" twoTurnCtx "Thanks for sharing"
    rfl (by decide) rfl rfl rfl (by decide)

end VoiceBot
